import Mathlib

/-
Verification of the food-delivery analytics repository.

The data generator (database/setup_database.py) and the metrics engine
(python_analytics/analytics_engine.py) are embedded shallowly: monetary
values are exact rationals, SQL aggregations become list functions, and
library calls that can raise are modelled with `Except`.  Random draws of
the generator appear as explicit parameters constrained to the intervals
the source draws them from.
-/

namespace FoodDelivery

/-! ### Rounding

Python's built-in `round` rounds half to even (banker's rounding); the
generator uses `round(x, 2)` on every monetary value. -/

/-- Python `round(x)` on an exact rational: round half to even. -/
def pyRound (x : ℚ) : ℤ :=
  if x - ⌊x⌋ = 1 / 2 then (if ⌊x⌋ % 2 = 0 then ⌊x⌋ else ⌊x⌋ + 1) else round x

/-- Python `round(x, 2)`: round to two decimal places. -/
def round2 (x : ℚ) : ℚ := (pyRound (100 * x) : ℚ) / 100

theorem pyRound_le (x : ℚ) : (pyRound x : ℚ) ≤ x + 1 / 2 := by
  unfold pyRound
  split_ifs with h h2 <;> push_cast
  · linarith [Int.floor_le x]
  · linarith [Int.floor_le x, h]
  · exact round_le_add_half x

theorem le_pyRound (x : ℚ) : x - 1 / 2 ≤ (pyRound x : ℚ) := by
  unfold pyRound
  split_ifs with h h2 <;> push_cast
  · linarith [h]
  · linarith [h]
  · linarith [sub_half_lt_round x]

theorem pyRound_intCast (m : ℤ) : pyRound (m : ℚ) = m := by
  unfold pyRound
  rw [Int.floor_intCast]
  have hc : (m : ℚ) - m = 0 := by ring
  rw [hc]
  norm_num [round_intCast]

/-- `round2` is the identity on amounts that are whole numbers of cents. -/
theorem round2_cent (m : ℤ) : round2 ((m : ℚ) / 100) = (m : ℚ) / 100 := by
  unfold round2
  rw [show (100 : ℚ) * ((m : ℚ) / 100) = (m : ℚ) by ring, pyRound_intCast]

theorem abs_round2_sub (x : ℚ) : |round2 x - x| ≤ 1 / 200 := by
  have h1 := pyRound_le (100 * x)
  have h2 := le_pyRound (100 * x)
  rw [round2, abs_le]
  constructor <;> linarith

/-- An amount that is a whole number of cents. -/
def IsCent (x : ℚ) : Prop := ∃ m : ℤ, x = (m : ℚ) / 100

theorem isCent_round2 (x : ℚ) : IsCent (round2 x) := ⟨pyRound (100 * x), rfl⟩

theorem IsCent.round2_eq {x : ℚ} (h : IsCent x) : round2 x = x := by
  obtain ⟨m, rfl⟩ := h
  exact round2_cent m

theorem IsCent.add {x y : ℚ} (hx : IsCent x) (hy : IsCent y) : IsCent (x + y) := by
  obtain ⟨m, rfl⟩ := hx
  obtain ⟨n, rfl⟩ := hy
  exact ⟨m + n, by push_cast; ring⟩

theorem IsCent.sub {x y : ℚ} (hx : IsCent x) (hy : IsCent y) : IsCent (x - y) := by
  obtain ⟨m, rfl⟩ := hx
  obtain ⟨n, rfl⟩ := hy
  exact ⟨m - n, by push_cast; ring⟩

theorem isCent_zero : IsCent 0 := ⟨0, by norm_num⟩

theorem IsCent.natMul {x : ℚ} (n : ℕ) (hx : IsCent x) : IsCent ((n : ℚ) * x) := by
  obtain ⟨m, rfl⟩ := hx
  exact ⟨(n : ℤ) * m, by push_cast; ring⟩

/-! ### Data generator (database/setup_database.py)

Random draws appear as explicit arguments; theorems constrain them to the
intervals the source passes to `random.uniform` / `random.randint` /
`np.random.choice`. -/

/-- Price of a generated menu item: `round(uniform(8.99, 24.99), 2)`
(generate_menu_items). -/
def genMenuPrice (base_price : ℚ) : ℚ := round2 base_price

/-- Cost of a generated menu item: `round(base_price * uniform(0.25, 0.45), 2)`
(generate_menu_items). -/
def genMenuCost (base_price ratio : ℚ) : ℚ := round2 (base_price * ratio)

inductive OrderStatus
  | completed
  | cancelled
  | pending
deriving DecidableEq, Repr

/-- A menu_items row, restricted to the columns the generator and the
analytics queries read. -/
structure MenuItem where
  item_id : ℕ
  restaurant_id : ℕ
  item_name : String
  price : ℚ
  cost_to_make : ℚ
  is_available : Bool
deriving DecidableEq, Repr

/-- One order line produced by generate_orders_and_items. -/
structure OrderLine where
  item_id : ℕ
  quantity : ℕ
  unit_price : ℚ
deriving DecidableEq, Repr

/-- The `restaurant_items` filter of generate_orders_and_items: menu items of
the chosen restaurant that are available. -/
def restaurantItems (menu : List MenuItem) (rid : ℕ) : List MenuItem :=
  menu.filter (fun m => decide (m.restaurant_id = rid ∧ m.is_available = true))

/-- The per-item loop of generate_orders_and_items: the i-th selected row
becomes a line with quantity `qty i` (the i-th draw from 1, 2, 3) at the
item's menu price. -/
def mkLines : List MenuItem → ℕ → (ℕ → ℕ) → List OrderLine
  | [], _, _ => []
  | m :: ms, i, qty => ⟨m.item_id, qty i, m.price⟩ :: mkLines ms (i + 1) qty

/-- Line items of one generated order.  `sample` stands for
`DataFrame.sample` (distinct rows, without replacement); the code requests
`min(num_items, len(restaurant_items))` rows where num_items is drawn
from 1..5. -/
def genOrderLines (menu : List MenuItem) (rid : ℕ)
    (sample : List MenuItem → ℕ → List MenuItem)
    (num_items : ℕ) (qty : ℕ → ℕ) : List OrderLine :=
  let items := restaurantItems menu rid
  mkLines (sample items (min num_items items.length)) 0 qty

/-- `subtotal`: sum over the order lines of quantity * unit_price. -/
def subtotalOf (lines : List OrderLine) : ℚ :=
  (lines.map (fun l => (l.quantity : ℚ) * l.unit_price)).sum

structure OrderTotals where
  subtotal : ℚ
  delivery_fee : ℚ
  tax_amount : ℚ
  tip_amount : ℚ
  discount_amount : ℚ
  total_amount : ℚ
deriving DecidableEq, Repr

/-- Monetary totals of one generated order (generate_orders_and_items):
fee = round(uniform(1.99, 4.99), 2); tax = round(subtotal * 0.08, 2);
tip = round(subtotal * uniform(0.1, 0.25), 2) only on completed orders;
discount = round(subtotal * uniform(0, 0.15), 2) with probability 0.2;
total = round(subtotal + fee + tax + tip - discount, 2). -/
def genOrderTotals (lines : List OrderLine) (status : OrderStatus)
    (fee_raw tip_rate disc_rate : ℚ) (has_discount : Bool) : OrderTotals :=
  let subtotal := subtotalOf lines
  let delivery_fee := round2 fee_raw
  let tax_amount := round2 (subtotal * (8 / 100))
  let tip_amount := if status = .completed then round2 (subtotal * tip_rate) else 0
  let discount_amount := if has_discount then round2 (subtotal * disc_rate) else 0
  { subtotal := subtotal, delivery_fee := delivery_fee, tax_amount := tax_amount,
    tip_amount := tip_amount, discount_amount := discount_amount,
    total_amount :=
      round2 (subtotal + delivery_fee + tax_amount + tip_amount - discount_amount) }

/-- `delivery_time_minutes`: `random.randint(20, 60)` when the order is
completed, NULL otherwise (generate_orders_and_items). -/
def genDeliveryTime (status : OrderStatus) (draw : ℕ) : Option ℕ :=
  if status = .completed then some draw else none

theorem isCent_subtotal {lines : List OrderLine}
    (hp : ∀ l ∈ lines, IsCent l.unit_price) : IsCent (subtotalOf lines) := by
  induction lines with
  | nil => exact isCent_zero
  | cons l ls ih =>
    rw [subtotalOf, List.map_cons, List.sum_cons]
    exact ((hp l (List.mem_cons_self l ls)).natMul l.quantity).add
      (ih fun x hx => hp x (List.mem_cons_of_mem l hx))

theorem isCent_ite {c : Prop} [Decidable c] {x : ℚ} (hx : IsCent x) :
    IsCent (if c then x else 0) := by
  split_ifs
  · exact hx
  · exact isCent_zero

/-- Claim C4: for every generated order, total_amount equals
subtotal + delivery_fee + tax_amount + tip_amount - discount_amount (the
claimed rounding tolerance is not even needed: menu prices are whole cents,
so every component and their sum are whole cents and the final round is the
identity), where subtotal is the sum over the order's items of
quantity * unit_price. -/
theorem order_total_components (lines : List OrderLine) (status : OrderStatus)
    (fee_raw tip_rate disc_rate : ℚ) (has_discount : Bool)
    (hp : ∀ l ∈ lines, IsCent l.unit_price) :
    (genOrderTotals lines status fee_raw tip_rate disc_rate has_discount).total_amount =
      subtotalOf lines +
      (genOrderTotals lines status fee_raw tip_rate disc_rate has_discount).delivery_fee +
      (genOrderTotals lines status fee_raw tip_rate disc_rate has_discount).tax_amount +
      (genOrderTotals lines status fee_raw tip_rate disc_rate has_discount).tip_amount -
      (genOrderTotals lines status fee_raw tip_rate disc_rate has_discount).discount_amount := by
  have hsum : IsCent (subtotalOf lines + round2 fee_raw +
      round2 (subtotalOf lines * (8 / 100)) +
      (if status = .completed then round2 (subtotalOf lines * tip_rate) else 0) -
      (if has_discount then round2 (subtotalOf lines * disc_rate) else 0)) :=
    ((((isCent_subtotal hp).add (isCent_round2 _)).add (isCent_round2 _)).add
      (isCent_ite (isCent_round2 _))).sub (isCent_ite (isCent_round2 _))
  simpa [genOrderTotals] using hsum.round2_eq

/-- Witness for C4: a completed two-line order with cent-valued prices. -/
theorem order_total_components_witness :
    (genOrderTotals [⟨1, 2, 1249 / 100⟩, ⟨2, 1, 899 / 100⟩] .completed (35 / 10)
        (3 / 20) (1 / 10) true).total_amount =
      subtotalOf [⟨1, 2, 1249 / 100⟩, ⟨2, 1, 899 / 100⟩] +
      (genOrderTotals [⟨1, 2, 1249 / 100⟩, ⟨2, 1, 899 / 100⟩] .completed (35 / 10)
        (3 / 20) (1 / 10) true).delivery_fee +
      (genOrderTotals [⟨1, 2, 1249 / 100⟩, ⟨2, 1, 899 / 100⟩] .completed (35 / 10)
        (3 / 20) (1 / 10) true).tax_amount +
      (genOrderTotals [⟨1, 2, 1249 / 100⟩, ⟨2, 1, 899 / 100⟩] .completed (35 / 10)
        (3 / 20) (1 / 10) true).tip_amount -
      (genOrderTotals [⟨1, 2, 1249 / 100⟩, ⟨2, 1, 899 / 100⟩] .completed (35 / 10)
        (3 / 20) (1 / 10) true).discount_amount := by
  apply order_total_components
  intro l hl
  simp only [List.mem_cons, List.not_mem_nil, or_false] at hl
  rcases hl with rfl | rfl
  · exact ⟨1249, rfl⟩
  · exact ⟨899, rfl⟩

/-- Claim C7: for every generated menu item, the stored price lies in
[8.99, 24.99] and 0.25 * price ≤ cost_to_make ≤ 0.45 * price up to one cent
of rounding slack. -/
theorem menu_cost_ratio_bounds (base_price ratio : ℚ)
    (hb1 : 899 / 100 ≤ base_price) (hb2 : base_price ≤ 2499 / 100)
    (hr1 : 1 / 4 ≤ ratio) (hr2 : ratio ≤ 9 / 20) :
    899 / 100 ≤ genMenuPrice base_price ∧ genMenuPrice base_price ≤ 2499 / 100 ∧
    1 / 4 * genMenuPrice base_price - 1 / 100 ≤ genMenuCost base_price ratio ∧
    genMenuCost base_price ratio ≤ 9 / 20 * genMenuPrice base_price + 1 / 100 := by
  have hbpos : (0 : ℚ) ≤ base_price := by linarith
  have hpl := le_pyRound (100 * base_price)
  have hpu := pyRound_le (100 * base_price)
  have hlow : (899 : ℚ) ≤ (pyRound (100 * base_price) : ℚ) := by
    have h8 : (898 : ℚ) < (pyRound (100 * base_price) : ℚ) := by linarith
    have h9 : (898 : ℤ) < pyRound (100 * base_price) := by exact_mod_cast h8
    exact_mod_cast h9
  have hhigh : (pyRound (100 * base_price) : ℚ) ≤ (2499 : ℚ) := by
    have h8 : (pyRound (100 * base_price) : ℚ) < 2500 := by linarith
    have h9 : pyRound (100 * base_price) < (2500 : ℤ) := by exact_mod_cast h8
    have h10 : pyRound (100 * base_price) ≤ (2499 : ℤ) := by omega
    exact_mod_cast h10
  have hc := abs_round2_sub (base_price * ratio)
  have hpr := abs_round2_sub base_price
  rw [abs_le] at hc hpr
  have hm1 : base_price * (1 / 4) ≤ base_price * ratio :=
    mul_le_mul_of_nonneg_left hr1 hbpos
  have hm2 : base_price * ratio ≤ base_price * (9 / 20) :=
    mul_le_mul_of_nonneg_left hr2 hbpos
  refine ⟨?_, ?_, ?_, ?_⟩
  · unfold genMenuPrice round2
    linarith
  · unfold genMenuPrice round2
    linarith
  · unfold genMenuPrice genMenuCost
    linarith
  · unfold genMenuPrice genMenuCost
    linarith

/-- Witness for C7: base price 10.00, cost ratio 0.30. -/
theorem menu_cost_ratio_bounds_witness :
    899 / 100 ≤ genMenuPrice 10 ∧ genMenuPrice 10 ≤ 2499 / 100 ∧
    1 / 4 * genMenuPrice 10 - 1 / 100 ≤ genMenuCost 10 (3 / 10) ∧
    genMenuCost 10 (3 / 10) ≤ 9 / 20 * genMenuPrice 10 + 1 / 100 :=
  menu_cost_ratio_bounds 10 (3 / 10) (by norm_num) (by norm_num) (by norm_num)
    (by norm_num)

theorem mkLines_map_item_id (ms : List MenuItem) (i : ℕ) (qty : ℕ → ℕ) :
    (mkLines ms i qty).map (·.item_id) = ms.map (·.item_id) := by
  induction ms generalizing i with
  | nil => rfl
  | cons m ms ih => simp [mkLines, ih]

theorem mkLines_length (ms : List MenuItem) (i : ℕ) (qty : ℕ → ℕ) :
    (mkLines ms i qty).length = ms.length := by
  induction ms generalizing i with
  | nil => rfl
  | cons m ms ih => simp [mkLines, ih]

theorem mem_mkLines {ms : List MenuItem} {i : ℕ} {qty : ℕ → ℕ} {l : OrderLine}
    (h : l ∈ mkLines ms i qty) : ∃ m ∈ ms, l.item_id = m.item_id := by
  induction ms generalizing i with
  | nil => cases h
  | cons m ms ih =>
    rcases List.mem_cons.mp h with rfl | h2
    · exact ⟨m, List.mem_cons_self m ms, rfl⟩
    · obtain ⟨m2, hm2, he⟩ := ih h2
      exact ⟨m2, List.mem_cons_of_mem m hm2, he⟩

/-- Claim C9: each generated order references pairwise-distinct menu items,
every referenced item belongs to the order's restaurant and was available at
creation time, and the order has 1 to 5 line items.  `sample` carries the
contract of `DataFrame.sample`: a selection of distinct rows (a sublist) of
the requested size. -/
theorem order_items_invariants (menu : List MenuItem) (rid : ℕ)
    (sample : List MenuItem → ℕ → List MenuItem) (num_items : ℕ) (qty : ℕ → ℕ)
    (hmenu : (menu.map (·.item_id)).Nodup)
    (hsub : ∀ xs n, (sample xs n).Sublist xs)
    (hlen : ∀ xs n, (sample xs n).length = min n xs.length)
    (hn1 : 1 ≤ num_items) (hn5 : num_items ≤ 5)
    (hne : restaurantItems menu rid ≠ []) :
    ((genOrderLines menu rid sample num_items qty).map (·.item_id)).Nodup ∧
    (∀ l ∈ genOrderLines menu rid sample num_items qty,
      ∃ m ∈ menu, l.item_id = m.item_id ∧ m.restaurant_id = rid ∧
        m.is_available = true) ∧
    1 ≤ (genOrderLines menu rid sample num_items qty).length ∧
    (genOrderLines menu rid sample num_items qty).length ≤ 5 := by
  have hitems : (restaurantItems menu rid).Sublist menu := List.filter_sublist _
  have hsel : (sample (restaurantItems menu rid)
      (min num_items (restaurantItems menu rid).length)).Sublist
      (restaurantItems menu rid) := hsub _ _
  refine ⟨?_, ?_, ?_, ?_⟩
  · rw [genOrderLines, mkLines_map_item_id]
    exact hmenu.sublist ((hsel.trans hitems).map (·.item_id))
  · intro l hl
    obtain ⟨m, hm, he⟩ := mem_mkLines hl
    have hmi : m ∈ restaurantItems menu rid := hsel.mem hm
    rw [restaurantItems, List.mem_filter] at hmi
    have hprop := of_decide_eq_true hmi.2
    exact ⟨m, hmi.1, he, hprop.1, hprop.2⟩
  · rw [genOrderLines, mkLines_length, hlen]
    have hpos : 0 < (restaurantItems menu rid).length := List.length_pos.mpr hne
    omega
  · rw [genOrderLines, mkLines_length, hlen]
    omega

/-- A small concrete menu table used by witnesses: restaurant 7 has two
available items and one unavailable one. -/
def demoMenu : List MenuItem :=
  [⟨1, 7, "Margherita Pizza", 1099 / 100, 3, true⟩,
   ⟨2, 7, "Caesar Salad", 899 / 100, 5 / 2, true⟩,
   ⟨3, 7, "Tiramisu", 799 / 100, 2, false⟩,
   ⟨4, 8, "Pad Thai", 1299 / 100, 4, true⟩]

/-- Witness for C9: two items sampled for restaurant 7 from the demo menu. -/
theorem order_items_invariants_witness :
    ((genOrderLines demoMenu 7 (fun xs n => xs.take n) 2 (fun _ => 1)).map
      (·.item_id)).Nodup ∧
    1 ≤ (genOrderLines demoMenu 7 (fun xs n => xs.take n) 2 (fun _ => 1)).length ∧
    (genOrderLines demoMenu 7 (fun xs n => xs.take n) 2 (fun _ => 1)).length ≤ 5 :=
  ⟨(order_items_invariants demoMenu 7 (fun xs n => xs.take n) 2 (fun _ => 1)
      (by decide) (fun xs n => List.take_sublist ..) (fun xs n => List.length_take ..)
      (by norm_num) (by norm_num) (by decide)).1,
   (order_items_invariants demoMenu 7 (fun xs n => xs.take n) 2 (fun _ => 1)
      (by decide) (fun xs n => List.take_sublist ..) (fun xs n => List.length_take ..)
      (by norm_num) (by norm_num) (by decide)).2.2.1,
   (order_items_invariants demoMenu 7 (fun xs n => xs.take n) 2 (fun _ => 1)
      (by decide) (fun xs n => List.take_sublist ..) (fun xs n => List.length_take ..)
      (by norm_num) (by norm_num) (by decide)).2.2.2⟩

/-- Claim C10: delivery_time_minutes is NULL exactly when the order is not
completed, and on completed orders it is the randint(20, 60) draw, hence an
integer between 20 and 60 inclusive. -/
theorem delivery_time_iff_completed (status : OrderStatus) (draw : ℕ)
    (h1 : 20 ≤ draw) (h2 : draw ≤ 60) :
    (genDeliveryTime status draw = none ↔ status ≠ .completed) ∧
    (∀ v, genDeliveryTime status draw = some v → 20 ≤ v ∧ v ≤ 60) := by
  unfold genDeliveryTime
  constructor
  · split_ifs with h <;> simp [h]
  · intro v hv
    split_ifs at hv with h
    obtain rfl : draw = v := by injection hv
    exact ⟨h1, h2⟩

/-- Witness for C10: a completed order gets its 30-minute draw; a pending
order gets NULL. -/
theorem delivery_time_iff_completed_witness :
    (20 ≤ 30 ∧ 30 ≤ 60) ∧ genDeliveryTime .pending 30 = none :=
  ⟨(delivery_time_iff_completed .completed 30 (by norm_num) (by norm_num)).2 30 rfl,
   ((delivery_time_iff_completed .pending 30 (by norm_num) (by norm_num)).1).mpr
     (by decide)⟩

/-! ### Metrics engine (python_analytics/analytics_engine.py)

The relational store is embedded as lists of rows; SQL aggregation queries
become list functions.  `JULIANDAY` timestamps are rationals (fractional
day numbers), and the query parameter `now` stands for `JULIANDAY('now')`. -/

/-- A customers row, restricted to the columns the analytics queries read. -/
structure Customer where
  customer_id : ℕ
  name : String
  loyalty_tier : String
deriving DecidableEq, Repr

/-- An orders row, restricted to the columns the analytics queries read. -/
structure Order where
  order_id : ℕ
  customer_id : ℕ
  restaurant_id : ℕ
  order_date : ℚ
  total_amount : ℚ
  status : OrderStatus
  delivery_time_minutes : Option ℕ
deriving DecidableEq, Repr

/-- A restaurants row, restricted to the columns the analytics queries read. -/
structure Restaurant where
  restaurant_id : ℕ
  name : String
  city : String
  cuisine_type : String
  rating : ℚ
  is_active : Bool
deriving DecidableEq, Repr

/-- An order_items row. -/
structure OrderItemRow where
  order_item_id : ℕ
  order_id : ℕ
  item_id : ℕ
  quantity : ℕ
  unit_price : ℚ
  item_rating : Option ℕ
deriving DecidableEq, Repr

/-- SQL MAX over a column: NULL (none) on an empty group. -/
def maxQ : List ℚ → Option ℚ
  | [] => none
  | x :: l => some (match maxQ l with | none => x | some y => max x y)

theorem maxQ_eq_none_iff (l : List ℚ) : maxQ l = none ↔ l = [] := by
  cases l <;> simp [maxQ]

/-- Mean of a list, with the empty case mapped to 0 (SQL `COALESCE(AVG(.), 0)`;
pandas renders the empty mean as NaN, which no consumer branches on). -/
def meanQ (l : List ℚ) : ℚ := if l.length = 0 then 0 else l.sum / l.length

/-- The completed orders of one customer: the LEFT JOIN condition
`o.customer_id = c.customer_id AND o.status = 'completed'` of the CLV query. -/
def completedOrdersOf (orders : List Order) (cid : ℕ) : List Order :=
  orders.filter (fun o => decide (o.customer_id = cid ∧ o.status = .completed))

/-- One output row of the CLV query in get_customer_analytics. -/
structure CustomerRow where
  customer_id : ℕ
  name : String
  loyalty_tier : String
  order_frequency : ℕ
  avg_order_value : ℚ
  total_spent : ℚ
  days_since_last_order : Option ℚ
  estimated_clv : ℚ
  customer_status : String
deriving DecidableEq, Repr

/-- The CLV query of get_customer_analytics, for one customer: aggregates
the customer's completed orders, derives estimated_clv via the CASE on
order_frequency and customer_status via the CASE on days_since_last_order. -/
def customerRowOf (orders : List Order) (now : ℚ) (c : Customer) : CustomerRow :=
  let os := completedOrdersOf orders c.customer_id
  let freq := os.length
  let total := (os.map (·.total_amount)).sum
  let avg := if freq = 0 then 0 else total / (freq : ℚ)
  let dsl := (maxQ (os.map (·.order_date))).map (fun d => now - d)
  { customer_id := c.customer_id, name := c.name, loyalty_tier := c.loyalty_tier,
    order_frequency := freq, avg_order_value := avg, total_spent := total,
    days_since_last_order := dsl,
    estimated_clv := if 0 < freq then (freq : ℚ) * avg * 12 else 0,
    customer_status :=
      match dsl with
      | none => "Never Ordered"
      | some d => if d ≤ 30 then "Active" else if d ≤ 90 then "At Risk" else "Churned" }

/-- get_customer_analytics: the CLV query grouped by customer. -/
def get_customer_analytics (customers : List Customer) (orders : List Order)
    (now : ℚ) : List CustomerRow :=
  customers.map (customerRowOf orders now)

/-- Claim C3: in the customer value metrics, estimated_clv equals
order_count * avg_order_value * 12 over completed orders; the status is
Never Ordered (with estimated_clv = 0) exactly when the customer has no
completed order, Active when days since the last completed order is at most
30, At Risk when at most 90, and Churned otherwise. -/
theorem customer_clv_status_spec (orders : List Order) (now : ℚ) (c : Customer) :
    (customerRowOf orders now c).estimated_clv =
      ((customerRowOf orders now c).order_frequency : ℚ) *
        (customerRowOf orders now c).avg_order_value * 12 ∧
    ((customerRowOf orders now c).order_frequency = 0 →
      (customerRowOf orders now c).customer_status = "Never Ordered" ∧
      (customerRowOf orders now c).estimated_clv = 0) ∧
    (∀ d, (customerRowOf orders now c).days_since_last_order = some d →
      (customerRowOf orders now c).customer_status =
        if d ≤ 30 then "Active" else if d ≤ 90 then "At Risk" else "Churned") ∧
    ((customerRowOf orders now c).days_since_last_order = none ↔
      completedOrdersOf orders c.customer_id = []) := by
  refine ⟨?_, ?_, ?_, ?_⟩
  · simp only [customerRowOf]
    rcases Nat.eq_zero_or_pos (completedOrdersOf orders c.customer_id).length with h | h
    · simp [h]
    · simp [h, Nat.pos_iff_ne_zero.mp h]
  · intro h0
    simp only [customerRowOf] at h0
    have he : completedOrdersOf orders c.customer_id = [] :=
      List.length_eq_zero.mp h0
    constructor <;> simp [customerRowOf, he, maxQ]
  · intro d hd
    simp only [customerRowOf] at hd ⊢
    rw [hd]
  · simp only [customerRowOf]
    rw [Option.map_eq_none', maxQ_eq_none_iff, List.map_eq_nil_iff]

/-- execute_query: run the query against the store; on any exception print
and return an empty DataFrame.  The attempt (pd.read_sql_query on a fresh
connection) is modelled by its outcome, an `Except`. -/
def execute_query {α : Type} (attempt : Except String (List α)) : List α :=
  match attempt with
  | .ok result => result
  | .error _ => []

/-- Claim C6: if executing the query fails (malformed SQL or store
unavailable), execute_query returns an empty result set to its caller
instead of propagating the exception. -/
theorem execute_query_error_empty {α : Type} (attempt : Except String (List α))
    (e : String) (h : attempt = .error e) : execute_query attempt = [] := by
  rw [h]
  rfl

/-- Witness for C6: a failing query yields the empty result set. -/
theorem execute_query_error_empty_witness :
    execute_query (Except.error "no such table: orders" : Except String (List ℕ)) = [] :=
  execute_query_error_empty _ "no such table: orders" rfl

/-- One output row of the restaurant performance query. -/
structure RestaurantRow where
  restaurant_id : ℕ
  restaurant_name : String
  city : String
  cuisine_type : String
  rating : ℚ
  total_orders : ℕ
  unique_customers : ℕ
  total_revenue : ℚ
  avg_order_value : ℚ
  avg_delivery_time : ℚ
  revenue_per_customer : ℚ
deriving DecidableEq, Repr

/-- The completed orders of one restaurant: the LEFT JOIN condition
`o.restaurant_id = r.restaurant_id AND o.status = 'completed'`. -/
def completedAt (orders : List Order) (rid : ℕ) : List Order :=
  orders.filter (fun o => decide (o.restaurant_id = rid ∧ o.status = .completed))

/-- One group of the restaurant performance query (grouping key is the
primary key restaurant_id, so each restaurant yields one group):
COUNT(DISTINCT order_id), COUNT(DISTINCT customer_id),
COALESCE(SUM/AVG(total_amount), 0), COALESCE(AVG(delivery_time_minutes), 0)
(SQL AVG ignores NULLs) and the CASE for revenue_per_customer. -/
def restaurantRowOf (orders : List Order) (r : Restaurant) : RestaurantRow :=
  let os := completedAt orders r.restaurant_id
  let uc := ((os.map (·.customer_id)).dedup).length
  let rev := (os.map (·.total_amount)).sum
  let dts := os.filterMap (·.delivery_time_minutes)
  { restaurant_id := r.restaurant_id, restaurant_name := r.name, city := r.city,
    cuisine_type := r.cuisine_type, rating := r.rating,
    total_orders := ((os.map (·.order_id)).dedup).length,
    unique_customers := uc,
    total_revenue := rev,
    avg_order_value := if os.length = 0 then 0 else rev / (os.length : ℚ),
    avg_delivery_time := meanQ (dts.map (fun n => (n : ℚ))),
    revenue_per_customer := if 0 < uc then rev / (uc : ℚ) else 0 }

/-- get_restaurant_performance: one row per active restaurant
(WHERE r.is_active = 1), ordered by total_revenue descending. -/
def get_restaurant_performance (restaurants : List Restaurant)
    (orders : List Order) : List RestaurantRow :=
  ((restaurants.filter (·.is_active)).map (restaurantRowOf orders)).insertionSort
    (fun a b => b.total_revenue ≤ a.total_revenue)

instance : IsTotal RestaurantRow (fun a b => b.total_revenue ≤ a.total_revenue) :=
  ⟨fun a b => le_total b.total_revenue a.total_revenue⟩

instance : IsTrans RestaurantRow (fun a b => b.total_revenue ≤ a.total_revenue) :=
  ⟨fun _ _ _ h1 h2 => le_trans h2 h1⟩

theorem completedAt_filter (orders : List Order) (rid : ℕ) :
    completedAt (orders.filter (fun o => decide (o.status = OrderStatus.completed)))
      rid = completedAt orders rid := by
  unfold completedAt
  induction orders with
  | nil => rfl
  | cons o os ih =>
    by_cases hs : o.status = OrderStatus.completed <;>
      by_cases hr : o.restaurant_id = rid <;>
      simp [hs, hr, ih]

theorem restaurantRowOf_completed_only (orders : List Order) (r : Restaurant) :
    restaurantRowOf orders r =
      restaurantRowOf
        (orders.filter (fun o => decide (o.status = OrderStatus.completed))) r := by
  unfold restaurantRowOf
  rw [completedAt_filter]

/-- Claim C8: the restaurant performance metrics contain one row per active
restaurant (a permutation of the active restaurants, inactive excluded),
every row aggregates only completed orders, revenue_per_customer is 0 when
there are no unique customers, and the result is sorted by descending
total revenue. -/
theorem restaurant_performance_spec (restaurants : List Restaurant)
    (orders : List Order) :
    List.Perm ((get_restaurant_performance restaurants orders).map (·.restaurant_id))
      (((restaurants.filter (·.is_active)).map (·.restaurant_id))) ∧
    List.Sorted (fun a b => b.total_revenue ≤ a.total_revenue)
      (get_restaurant_performance restaurants orders) ∧
    (∀ row ∈ get_restaurant_performance restaurants orders,
      ∃ r ∈ restaurants, r.is_active = true ∧
        row = restaurantRowOf
          (orders.filter (fun o => decide (o.status = OrderStatus.completed))) r) ∧
    (∀ row ∈ get_restaurant_performance restaurants orders,
      row.unique_customers = 0 → row.revenue_per_customer = 0) := by
  have hperm : List.Perm (get_restaurant_performance restaurants orders)
      ((restaurants.filter (·.is_active)).map (restaurantRowOf orders)) :=
    List.perm_insertionSort _ _
  refine ⟨?_, ?_, ?_, ?_⟩
  · simpa using hperm.map (·.restaurant_id)
  · exact List.sorted_insertionSort _ _
  · intro row hrow
    have : row ∈ (restaurants.filter (·.is_active)).map (restaurantRowOf orders) :=
      hperm.mem_iff.mp hrow
    obtain ⟨r, hr, rfl⟩ := List.mem_map.mp this
    rw [List.mem_filter] at hr
    exact ⟨r, hr.1, hr.2, restaurantRowOf_completed_only orders r⟩
  · intro row hrow huc
    have : row ∈ (restaurants.filter (·.is_active)).map (restaurantRowOf orders) :=
      hperm.mem_iff.mp hrow
    obtain ⟨r, _, rfl⟩ := List.mem_map.mp this
    simp only [restaurantRowOf] at huc ⊢
    simp [huc]

/-- A demo restaurants row for witnesses. -/
def demoRestaurant : Restaurant := ⟨3, "Dragon Palace", "Chicago", "Chinese", 4, true⟩

/-- Witness for C8: a single active restaurant with no orders; its row has
no unique customers and revenue_per_customer 0. -/
theorem restaurant_performance_spec_witness :
    List.Perm ((get_restaurant_performance [demoRestaurant] []).map (·.restaurant_id))
      ((([demoRestaurant].filter (·.is_active)).map (·.restaurant_id))) ∧
    (restaurantRowOf ([] : List Order) demoRestaurant).revenue_per_customer = 0 :=
  ⟨(restaurant_performance_spec [demoRestaurant] []).1,
   (restaurant_performance_spec [demoRestaurant] []).2.2.2
     (restaurantRowOf [] demoRestaurant) (by decide) (by decide)⟩

/-! ### Customer segmentation (customer_segmentation) -/

/-- pandas Series.median: mean of the two middle order statistics for an
even count, the middle one for an odd count.  pandas yields NaN on an empty
column; the labeling path always passes n_clusters ≥ 1 rows, and 0 stands
in for the unreachable NaN. -/
def median (l : List ℚ) : ℚ :=
  let s := l.insertionSort (· ≤ ·)
  if s.length % 2 = 1 then s.getD (s.length / 2) 0
  else if s.length = 0 then 0
  else (s.getD (s.length / 2 - 1) 0 + s.getD (s.length / 2) 0) / 2

/-- The clustering feature vector: order_frequency, avg_order_value,
total_spent, days_since_last_order (the latter with the 999 fill already
applied). -/
structure ClusterStats where
  order_frequency : ℚ
  avg_order_value : ℚ
  total_spent : ℚ
  days_since_last_order : ℚ
deriving DecidableEq, Repr

/-- The segment-naming rule of customer_segmentation, applied to one
cluster's mean feature vector `c` given the per-cluster mean table
`summary` (`cluster_summary` in the code): frequency and value are
compared against the medians of the per-cluster means, recency against
the constant 30. -/
def segmentName (summary : List ClusterStats) (c : ClusterStats) : String :=
  let medF := median (summary.map (·.order_frequency))
  let medV := median (summary.map (·.avg_order_value))
  if medF ≤ c.order_frequency ∧ medV ≤ c.avg_order_value then
    (if c.days_since_last_order ≤ 30 then "Champions" else "Loyal Customers")
  else if medF ≤ c.order_frequency then "Frequent Customers"
  else if medV ≤ c.avg_order_value then "High Value Customers"
  else "Occasional Customers"

/-- Modelled from the claim's wording, for refutation only (not from the
source): every feature of the cluster mean, including recency, is compared
against the population median of that feature. -/
def segmentNameClaim (population : List ClusterStats) (c : ClusterStats) : String :=
  let medF := median (population.map (·.order_frequency))
  let medV := median (population.map (·.avg_order_value))
  let medR := median (population.map (·.days_since_last_order))
  if medF ≤ c.order_frequency ∧ medV ≤ c.avg_order_value then
    (if c.days_since_last_order ≤ medR then "Champions" else "Loyal Customers")
  else if medF ≤ c.order_frequency then "Frequent Customers"
  else if medV ≤ c.avg_order_value then "High Value Customers"
  else "Occasional Customers"

/-- A clustered feature row: one active customer with its feature vector
and KMeans cluster label. -/
structure FeatRow where
  customer_id : ℕ
  stats : ClusterStats
  cluster : ℕ
deriving DecidableEq, Repr

def clusterStatsMean (rows : List ClusterStats) : ClusterStats :=
  { order_frequency := meanQ (rows.map (·.order_frequency)),
    avg_order_value := meanQ (rows.map (·.avg_order_value)),
    total_spent := meanQ (rows.map (·.total_spent)),
    days_since_last_order := meanQ (rows.map (·.days_since_last_order)) }

/-- `cluster_summary = active_customers.groupby('cluster')[features].mean()`,
read at indices 0..k-1.  KMeans returns k nonempty clusters, so every index
occurs; an absent cluster would make the code's `.loc` raise and is rendered
as the zero vector here. -/
def clusterMeans (rows : List FeatRow) (k : ℕ) : List ClusterStats :=
  (List.range k).map (fun c =>
    clusterStatsMean ((rows.filter (fun r => r.cluster == c)).map (·.stats)))

/-- Four active customers in four singleton clusters, so the per-cluster
means coincide with the population rows and the two median notions agree;
only the recency rule distinguishes the code from the claim. -/
def demoFeatRows : List FeatRow :=
  [⟨1, ⟨10, 100, 500, 40⟩, 0⟩,
   ⟨2, ⟨10, 100, 500, 60⟩, 1⟩,
   ⟨3, ⟨2, 20, 40, 50⟩, 2⟩,
   ⟨4, ⟨2, 20, 40, 50⟩, 3⟩]

/-- Counterexample to C2: cluster 0 has mean recency 40, above the 30-day
constant the code uses but below the population median recency 50, so the
code labels it Loyal Customers while the claimed rule labels it Champions. -/
theorem segment_label_counterexample :
    (clusterMeans demoFeatRows 4).getD 0 ⟨0, 0, 0, 0⟩ = ⟨10, 100, 500, 40⟩ ∧
    segmentName (clusterMeans demoFeatRows 4) ⟨10, 100, 500, 40⟩ = "Loyal Customers" ∧
    segmentNameClaim (demoFeatRows.map (·.stats)) ⟨10, 100, 500, 40⟩ = "Champions" := by
  norm_num [segmentName, segmentNameClaim, clusterMeans, clusterStatsMean, meanQ,
    demoFeatRows, median, List.insertionSort, List.orderedInsert, List.getD,
    List.range_succ]

/-- Claim C2 as amended: the cluster label compares the cluster's mean
frequency and mean value against the medians of the per-cluster means, and
its mean recency against the fixed 30-day threshold: high-frequency &
high-value & recent gives Champions, high-frequency & high-value & not
recent gives Loyal Customers, high-frequency only gives Frequent Customers,
high-value only gives High Value Customers, otherwise Occasional
Customers. -/
theorem segment_label_rule (summary : List ClusterStats) (c : ClusterStats) :
    (median (summary.map (·.order_frequency)) ≤ c.order_frequency →
     median (summary.map (·.avg_order_value)) ≤ c.avg_order_value →
     c.days_since_last_order ≤ 30 → segmentName summary c = "Champions") ∧
    (median (summary.map (·.order_frequency)) ≤ c.order_frequency →
     median (summary.map (·.avg_order_value)) ≤ c.avg_order_value →
     ¬c.days_since_last_order ≤ 30 → segmentName summary c = "Loyal Customers") ∧
    (median (summary.map (·.order_frequency)) ≤ c.order_frequency →
     ¬median (summary.map (·.avg_order_value)) ≤ c.avg_order_value →
     segmentName summary c = "Frequent Customers") ∧
    (¬median (summary.map (·.order_frequency)) ≤ c.order_frequency →
     median (summary.map (·.avg_order_value)) ≤ c.avg_order_value →
     segmentName summary c = "High Value Customers") ∧
    (¬median (summary.map (·.order_frequency)) ≤ c.order_frequency →
     ¬median (summary.map (·.avg_order_value)) ≤ c.avg_order_value →
     segmentName summary c = "Occasional Customers") := by
  refine ⟨?_, ?_, ?_, ?_, ?_⟩ <;> intro h1 h2 <;> try intro h3
  all_goals simp [segmentName, h1, h2, *]

/-- Witness for the amended C2: a cluster above both medians with mean
recency 20 is labelled Champions. -/
theorem segment_label_rule_witness :
    segmentName (clusterMeans demoFeatRows 4) ⟨10, 100, 500, 20⟩ = "Champions" :=
  (segment_label_rule (clusterMeans demoFeatRows 4) ⟨10, 100, 500, 20⟩).1
    (by norm_num [clusterMeans, clusterStatsMean, meanQ, demoFeatRows, median,
      List.insertionSort, List.orderedInsert, List.getD, List.range_succ])
    (by norm_num [clusterMeans, clusterStatsMean, meanQ, demoFeatRows, median,
      List.insertionSort, List.orderedInsert, List.getD, List.range_succ])
    (by norm_num)

/-- A demo customers row for witnesses. -/
def demoCustomer : Customer := ⟨5, "Alice Jones", "Gold"⟩

/-- Demo orders: customer 5 has two completed orders (last one 5 days before
`now = 1000`), one pending order, and customer 6 has one completed order. -/
def demoOrders : List Order :=
  [⟨11, 5, 3, 995, 30, .completed, some 35⟩,
   ⟨12, 5, 3, 990, 50, .completed, some 40⟩,
   ⟨13, 5, 3, 998, 20, .pending, none⟩,
   ⟨14, 6, 3, 997, 25, .completed, some 30⟩]

/-- Witness for C3: customer 5 at now = 1000 has recency 5, hence is
Active, and the CLV identity holds. -/
theorem customer_clv_status_witness :
    (customerRowOf demoOrders 1000 demoCustomer).estimated_clv =
      ((customerRowOf demoOrders 1000 demoCustomer).order_frequency : ℚ) *
        (customerRowOf demoOrders 1000 demoCustomer).avg_order_value * 12 ∧
    (customerRowOf demoOrders 1000 demoCustomer).customer_status = "Active" := by
  have h := customer_clv_status_spec demoOrders 1000 demoCustomer
  have hd : (customerRowOf demoOrders 1000 demoCustomer).days_since_last_order =
      some 5 := by
    norm_num [customerRowOf, completedOrdersOf, demoOrders, demoCustomer, maxQ,
      max_def]
  have hs := h.2.2.1 5 hd
  norm_num at hs
  exact ⟨h.1, hs⟩

/-! ### Re-running segmentation against the session cache (claim C5)

customer_segmentation reads the cached customer_analytics table, clusters
the active customers, labels the clusters, merges the cluster and
segment_name columns back into the table, and stores the merged table back
into the cache (both under customer_segments and customer_analytics).
pandas `merge` renames overlapping non-key columns with the _x/_y suffixes,
so on a second run in the same session the merged frame has no plain
segment_name column and the subsequent `customer_data['segment_name']`
lookup raises a KeyError.  KMeans with a fixed random_state is a
deterministic function of the feature matrix and is passed in as
`clusterFn`. -/

/-- The columns of the cached customer_analytics table as produced by the
CLV query. -/
def baseCols : List String :=
  ["customer_id", "name", "loyalty_tier", "order_frequency", "avg_order_value",
   "total_spent", "days_since_last_order", "estimated_clv", "customer_status"]

/-- `customer_data['days_since_last_order'].fillna(999)`. -/
def fillDays (r : CustomerRow) : CustomerRow :=
  { r with days_since_last_order := some (r.days_since_last_order.getD 999) }

/-- The feature vector of one customer row (after the 999 fill). -/
def featuresOf (r : CustomerRow) : ClusterStats :=
  { order_frequency := (r.order_frequency : ℚ), avg_order_value := r.avg_order_value,
    total_spent := r.total_spent,
    days_since_last_order := r.days_since_last_order.getD 999 }

/-- The cached customer table: its column list, its base rows, and the
cluster/segment_name column data when those columns are present. -/
structure SegTable where
  cols : List String
  rows : List CustomerRow
  seg : Option (List (Option ℕ × String))
deriving DecidableEq, Repr

/-- Column list of `left.merge(right, on=key)`: overlapping non-key columns
are kept from both sides under the _x/_y suffixes (pandas merge default). -/
def mergeSuffixCols (left right : List String) (key : String) : List String :=
  (left.map (fun c => if c ≠ key ∧ right.contains c = true then c ++ "_x" else c)) ++
  ((right.filter (fun c => c != key)).map
    (fun c => if left.contains c = true then c ++ "_y" else c))

/-- customer_segmentation as a transformer of the cached customer_analytics
table `t`; returns the function result together with the new cache entry.
When fewer active customers than clusters exist it returns the ungrouped
(filled) table and leaves the cache unchanged.  Otherwise it clusters,
labels (segmentName per cluster index), left-merges the two new columns by
customer_id (first match; customer_id is unique), fills missing
segment_name with Never Ordered, and caches the merged table.  When the
merge suffixes away the segment_name column (second run), the column
lookup raises KeyError. -/
def customer_segmentation (k : ℕ) (clusterFn : List ClusterStats → List ℕ)
    (t : SegTable) : Except String (SegTable × SegTable) :=
  let rows := t.rows.map fillDays
  let active := rows.filter (fun r => decide (0 < r.order_frequency))
  if active.length < k then
    .ok (⟨t.cols, rows, t.seg⟩, t)
  else
    let labels := clusterFn (active.map featuresOf)
    let assigned := active.zip labels
    let summary :=
      clusterMeans (assigned.map (fun p => ⟨p.1.customer_id, featuresOf p.1, p.2⟩)) k
    let mergedCols :=
      mergeSuffixCols t.cols ["customer_id", "cluster", "segment_name"] "customer_id"
    if mergedCols.contains "segment_name" then
      let seg := rows.map (fun r =>
        match assigned.find? (fun p => p.1.customer_id == r.customer_id) with
        | some p => (some p.2, segmentName summary (summary.getD p.2 ⟨0, 0, 0, 0⟩))
        | none => (none, "Never Ordered"))
      let res : SegTable := ⟨mergedCols, rows, some seg⟩
      .ok (res, res)
    else
      .error "KeyError: segment_name"

/-- Two successive calls in one session: the second call consumes the cache
entry written by the first. -/
def segTwice (k : ℕ) (fn : List ClusterStats → List ℕ) (t : SegTable) :
    Except String SegTable :=
  match customer_segmentation k fn t with
  | .ok (_, cache) =>
    match customer_segmentation k fn cache with
    | .ok (res2, _) => .ok res2
    | .error e => .error e
  | .error e => .error e

/-- Four active customer rows (all values whole numbers). -/
def demoCustRows : List CustomerRow :=
  [⟨1, "A", "Gold", 10, 100, 1000, some 5, 12000, "Active"⟩,
   ⟨2, "B", "Silver", 10, 100, 1000, some 60, 12000, "At Risk"⟩,
   ⟨3, "C", "Bronze", 2, 20, 40, some 50, 480, "At Risk"⟩,
   ⟨4, "D", "Bronze", 2, 20, 40, some 50, 480, "At Risk"⟩]

/-- Counterexample to C5: on this dataset the first segmentation run
succeeds, but re-running on the unchanged data in the same session raises a
KeyError instead of reproducing the labels, because the first run cached
the table with the segment columns already present. -/
theorem segmentation_rerun_counterexample :
    segTwice 4 (fun l => List.range l.length) ⟨baseCols, demoCustRows, none⟩ =
      .error "KeyError: segment_name" := by
  rfl

theorem fillDays_fillDays (r : CustomerRow) : fillDays (fillDays r) = fillDays r := by
  simp [fillDays]

/-- Claim C5 as amended: with at least as many active customers as clusters,
the first run on a freshly queried table (base columns only) succeeds and
caches its own result; the second run in the same session then fails with
the KeyError from the suffixed-away segment_name column, rather than
returning the same table again.  (Re-running from a fresh cache is
deterministic: the embedding is a pure function of the data.) -/
theorem segmentation_rerun_behavior (k : ℕ) (fn : List ClusterStats → List ℕ)
    (rows : List CustomerRow)
    (h : k ≤ ((rows.map fillDays).filter
      (fun r => decide (0 < r.order_frequency))).length) :
    (∃ res, customer_segmentation k fn ⟨baseCols, rows, none⟩ = .ok (res, res)) ∧
    segTwice k fn ⟨baseCols, rows, none⟩ = .error "KeyError: segment_name" := by
  have hnl : ¬((rows.map fillDays).filter
      (fun r => decide (0 < r.order_frequency))).length < k := not_lt.mpr h
  have hcomp : fillDays ∘ fillDays = fillDays := funext fillDays_fillDays
  have hfirst : customer_segmentation k fn ⟨baseCols, rows, none⟩ = .ok
      (⟨mergeSuffixCols baseCols ["customer_id", "cluster", "segment_name"]
          "customer_id",
        rows.map fillDays, some ((rows.map fillDays).map (fun r =>
          match ((rows.map fillDays).filter
              (fun r => decide (0 < r.order_frequency))).zip
              (fn (((rows.map fillDays).filter
                (fun r => decide (0 < r.order_frequency))).map featuresOf))
              |>.find? (fun p => p.1.customer_id == r.customer_id) with
          | some p => (some p.2, segmentName
              (clusterMeans ((((rows.map fillDays).filter
                  (fun r => decide (0 < r.order_frequency))).zip
                  (fn (((rows.map fillDays).filter
                    (fun r => decide (0 < r.order_frequency))).map featuresOf))).map
                  (fun p => ⟨p.1.customer_id, featuresOf p.1, p.2⟩)) k)
              ((clusterMeans ((((rows.map fillDays).filter
                  (fun r => decide (0 < r.order_frequency))).zip
                  (fn (((rows.map fillDays).filter
                    (fun r => decide (0 < r.order_frequency))).map featuresOf))).map
                  (fun p => ⟨p.1.customer_id, featuresOf p.1, p.2⟩)) k).getD p.2
                ⟨0, 0, 0, 0⟩))
          | none => (none, "Never Ordered")))⟩,
       ⟨mergeSuffixCols baseCols ["customer_id", "cluster", "segment_name"]
          "customer_id",
        rows.map fillDays, some ((rows.map fillDays).map (fun r =>
          match ((rows.map fillDays).filter
              (fun r => decide (0 < r.order_frequency))).zip
              (fn (((rows.map fillDays).filter
                (fun r => decide (0 < r.order_frequency))).map featuresOf))
              |>.find? (fun p => p.1.customer_id == r.customer_id) with
          | some p => (some p.2, segmentName
              (clusterMeans ((((rows.map fillDays).filter
                  (fun r => decide (0 < r.order_frequency))).zip
                  (fn (((rows.map fillDays).filter
                    (fun r => decide (0 < r.order_frequency))).map featuresOf))).map
                  (fun p => ⟨p.1.customer_id, featuresOf p.1, p.2⟩)) k)
              ((clusterMeans ((((rows.map fillDays).filter
                  (fun r => decide (0 < r.order_frequency))).zip
                  (fn (((rows.map fillDays).filter
                    (fun r => decide (0 < r.order_frequency))).map featuresOf))).map
                  (fun p => ⟨p.1.customer_id, featuresOf p.1, p.2⟩)) k).getD p.2
                ⟨0, 0, 0, 0⟩))
          | none => (none, "Never Ordered")))⟩) := by
    simp only [customer_segmentation]
    rw [if_neg hnl, if_pos (by decide)]
  refine ⟨⟨_, hfirst⟩, ?_⟩
  rw [segTwice, hfirst]
  simp only [customer_segmentation, List.map_map, hcomp]
  rw [if_neg hnl, if_neg (by decide)]

/-- Witness for the amended C5: two clusters over the four demo customers;
the second same-session run raises. -/
theorem segmentation_rerun_behavior_witness :
    segTwice 2 (fun l => (List.range l.length).map (fun i => i % 2))
      ⟨baseCols, demoCustRows, none⟩ = .error "KeyError: segment_name" :=
  (segmentation_rerun_behavior 2 (fun l => (List.range l.length).map (fun i => i % 2))
    demoCustRows (by decide)).2

/-! ### Menu, time-series, forecasting, peak-hours and insight metrics -/

/-- One output row of the menu analytics query. -/
structure MenuRow where
  item_id : ℕ
  item_name : String
  price : ℚ
  restaurant_name : String
  times_ordered : ℕ
  total_quantity_sold : ℕ
  total_revenue : ℚ
  avg_rating : ℚ
  profit_margin_pct : Option ℚ
deriving DecidableEq, Repr

/-- get_menu_analytics: one row per available menu item of an existing
restaurant (inner JOIN), LEFT JOIN to order_items, aggregated and sorted
by total_revenue descending; profit margin is NULL when cost_to_make is
not positive. -/
def get_menu_analytics (menu : List MenuItem) (restaurants : List Restaurant)
    (order_items : List OrderItemRow) : List MenuRow :=
  let rows := (menu.filter (fun m => m.is_available &&
      restaurants.any (fun r => r.restaurant_id == m.restaurant_id))).map (fun m =>
    let ois := order_items.filter (fun oi => oi.item_id == m.item_id)
    let ratings := ois.filterMap (·.item_rating)
    { item_id := m.item_id, item_name := m.item_name, price := m.price,
      restaurant_name :=
        ((restaurants.find? (fun r => r.restaurant_id == m.restaurant_id)).map
          (·.name)).getD "",
      times_ordered := ois.length,
      total_quantity_sold := (ois.map (·.quantity)).sum,
      total_revenue := (ois.map (fun oi => (oi.quantity : ℚ) * oi.unit_price)).sum,
      avg_rating := meanQ (ratings.map (fun n => (n : ℚ))),
      profit_margin_pct :=
        if 0 < m.cost_to_make then some ((m.price - m.cost_to_make) / m.price * 100)
        else none })
  rows.insertionSort (fun a b => b.total_revenue ≤ a.total_revenue)

/-- `DATE(order_date)` of a fractional day number. -/
def dateOf (d : ℚ) : ℤ := ⌊d⌋

/-- `strftime('%H', order_date)`. -/
def hourOf (d : ℚ) : ℕ := (⌊(d - ⌊d⌋) * 24⌋).toNat

/-- `strftime('%w', order_date)` (weekday of the day number, up to the
epoch alignment). -/
def dowOf (d : ℚ) : ℕ := (⌊d⌋ % 7).toNat

/-- One output row of the time-series query: completed orders of the
trailing 90 days grouped by (date, hour, weekday). -/
structure TimeRow where
  order_date : ℤ
  hour_of_day : ℕ
  day_of_week : ℕ
  order_count : ℕ
  daily_revenue : ℚ
  avg_order_value : ℚ
  unique_customers : ℕ
  avg_delivery_time : ℚ
deriving DecidableEq, Repr

/-- get_time_series_data: WHERE status = 'completed' AND order_date within
90 days of now, GROUP BY (date, hour, weekday), ORDER BY date, hour. -/
def get_time_series_data (orders : List Order) (now : ℚ) : List TimeRow :=
  let os := orders.filter
    (fun o => decide (o.status = OrderStatus.completed ∧ now - 90 ≤ o.order_date))
  let keys :=
    (os.map (fun o => (dateOf o.order_date, hourOf o.order_date,
      dowOf o.order_date))).dedup
  let rows := keys.map (fun k =>
    let g := os.filter (fun o =>
      (dateOf o.order_date, hourOf o.order_date, dowOf o.order_date) == k)
    { order_date := k.1, hour_of_day := k.2.1, day_of_week := k.2.2,
      order_count := g.length,
      daily_revenue := (g.map (·.total_amount)).sum,
      avg_order_value := meanQ (g.map (·.total_amount)),
      unique_customers := ((g.map (·.customer_id)).dedup).length,
      avg_delivery_time :=
        meanQ ((g.filterMap (·.delivery_time_minutes)).map (fun n => (n : ℚ))) })
  rows.insertionSort (fun a b =>
    a.order_date < b.order_date ∨
      (a.order_date = b.order_date ∧ a.hour_of_day ≤ b.hour_of_day))

/-- One row of the aggregated daily revenue table built by
revenue_forecasting. -/
structure DailyRow where
  order_date : ℤ
  daily_revenue : ℚ
  order_count : ℕ
  unique_customers : ℕ
  revenue_7day_ma : ℚ
  revenue_14day_ma : ℚ
  days_since_start : ℤ
deriving DecidableEq, Repr

/-- `rolling(n, min_periods=1).mean()`. -/
def rollingMean (n : ℕ) (l : List ℚ) : List ℚ :=
  (List.range l.length).map (fun i => meanQ ((l.take (i + 1)).drop (i + 1 - n)))

structure ForecastRow where
  days_since_start : ℤ
  predicted_revenue : ℚ
deriving DecidableEq, Repr

structure ForecastResult where
  historical : List DailyRow
  forecast : List ForecastRow
  model_score : ℚ
deriving DecidableEq, Repr

/-- sklearn LinearRegression.fit on one feature: raises on zero samples
(ValueError: Found array with 0 sample(s)); on zero x-variance the
least-squares minimum-norm solution has slope 0. -/
def linearFit (pts : List (ℚ × ℚ)) : Except String (ℚ × ℚ) :=
  if pts.length = 0 then .error "Found array with 0 sample(s)"
  else
    let n : ℚ := pts.length
    let sx := (pts.map (·.1)).sum
    let sy := (pts.map (·.2)).sum
    let sxx := (pts.map (fun p => p.1 * p.1)).sum
    let sxy := (pts.map (fun p => p.1 * p.2)).sum
    let den := n * sxx - sx * sx
    let slope := if den = 0 then 0 else (n * sxy - sx * sy) / den
    .ok (slope, (sy - slope * sx) / n)

/-- `model.score`: the coefficient of determination R^2; 1 for a perfect
fit of constant data, 0 for an imperfect fit of constant data (the
r2_score degenerate-denominator convention). -/
def r2Score (pts : List (ℚ × ℚ)) (slope intercept : ℚ) : ℚ :=
  let ybar := meanQ (pts.map (·.2))
  let sst := (pts.map (fun p => (p.2 - ybar) * (p.2 - ybar))).sum
  let ssres := (pts.map (fun p =>
    (p.2 - (slope * p.1 + intercept)) * (p.2 - (slope * p.1 + intercept)))).sum
  if sst = 0 then (if ssres = 0 then 1 else 0) else 1 - ssres / sst

/-- revenue_forecasting: aggregate the time series to daily revenue
(groupby sorts its keys), compute 7/14-day trailing means, fit a linear
trend of revenue against day index and project days_ahead future days. -/
def revenue_forecasting (ts : List TimeRow) (days_ahead : ℕ) :
    Except String ForecastResult :=
  let dates := ((ts.map (·.order_date)).dedup).insertionSort (· ≤ ·)
  let revs := dates.map (fun d =>
    ((ts.filter (fun r => r.order_date == d)).map (·.daily_revenue)).sum)
  let ma7 := rollingMean 7 revs
  let ma14 := rollingMean 14 revs
  let start := dates.headD 0
  let daily := (List.range dates.length).map (fun i =>
    let d := dates.getD i 0
    { order_date := d,
      daily_revenue := revs.getD i 0,
      order_count := ((ts.filter (fun r => r.order_date == d)).map (·.order_count)).sum,
      unique_customers :=
        ((ts.filter (fun r => r.order_date == d)).map (·.unique_customers)).sum,
      revenue_7day_ma := ma7.getD i 0,
      revenue_14day_ma := ma14.getD i 0,
      days_since_start := d - start : DailyRow })
  let pts := daily.map (fun r => ((r.days_since_start : ℚ), r.daily_revenue))
  match linearFit pts with
  | .error e => .error e
  | .ok (slope, intercept) =>
    let last := (daily.map (·.days_since_start)).foldl max 0
    .ok { historical := daily,
          forecast := (List.range days_ahead).map (fun i =>
            { days_since_start := last + (i : ℤ) + 1,
              predicted_revenue := slope * ((last : ℚ) + (i : ℚ) + 1) + intercept }),
          model_score := r2Score pts slope intercept }

structure HourlyRow where
  hour_of_day : ℕ
  order_count : ℕ
  daily_revenue : ℚ
  avg_order_value : ℚ
  unique_customers : ℕ
  avg_delivery_time : ℚ
deriving DecidableEq, Repr

structure DayRow where
  day_of_week : ℕ
  order_count : ℕ
  daily_revenue : ℚ
  avg_order_value : ℚ
  unique_customers : ℕ
  avg_delivery_time : ℚ
  day_name : String
deriving DecidableEq, Repr

structure PeakHours where
  hourly : List HourlyRow
  daily : List DayRow
  peak_hours_top3 : List ℕ
  peak_days_top3 : List String
deriving DecidableEq, Repr

def dayName (n : ℕ) : String :=
  ["Sunday", "Monday", "Tuesday", "Wednesday", "Thursday", "Friday",
    "Saturday"].getD n ""

/-- peak_hours_analysis: the time series grouped by hour and by weekday
(sum of counts/revenue/customers, mean of the averages), plus the top-3
hours and day names by order count (`nlargest(3, 'order_count')`). -/
def peak_hours_analysis (ts : List TimeRow) : PeakHours :=
  let hourly := (((ts.map (·.hour_of_day)).dedup).insertionSort (· ≤ ·)).map (fun h =>
    let g := ts.filter (fun r => r.hour_of_day == h)
    { hour_of_day := h, order_count := (g.map (·.order_count)).sum,
      daily_revenue := (g.map (·.daily_revenue)).sum,
      avg_order_value := meanQ (g.map (·.avg_order_value)),
      unique_customers := (g.map (·.unique_customers)).sum,
      avg_delivery_time := meanQ (g.map (·.avg_delivery_time)) : HourlyRow })
  let daily := (((ts.map (·.day_of_week)).dedup).insertionSort (· ≤ ·)).map (fun d =>
    let g := ts.filter (fun r => r.day_of_week == d)
    { day_of_week := d, order_count := (g.map (·.order_count)).sum,
      daily_revenue := (g.map (·.daily_revenue)).sum,
      avg_order_value := meanQ (g.map (·.avg_order_value)),
      unique_customers := (g.map (·.unique_customers)).sum,
      avg_delivery_time := meanQ (g.map (·.avg_delivery_time)),
      day_name := dayName d : DayRow })
  { hourly := hourly, daily := daily,
    peak_hours_top3 :=
      ((hourly.insertionSort (fun a b => b.order_count ≤ a.order_count)).take 3).map
        (·.hour_of_day),
    peak_days_top3 :=
      ((daily.insertionSort (fun a b => b.order_count ≤ a.order_count)).take 3).map
        (·.day_name) }

/-- The session data cache, with one optional entry per metric that
generate_business_insights reads. -/
structure AnalyticsCache where
  customer_analytics : Option (List CustomerRow)
  restaurant_performance : Option (List RestaurantRow)
  peak_hours : Option PeakHours
  menu_analytics : Option (List MenuRow)

/-- generate_business_insights: a formatting pass over the cached metrics.
`iloc[0]` on an empty frame raises IndexError (modelled by head? = none) and
`idxmax` on an empty column raises ValueError.  The pandas mean/max of an
empty column is NaN, which formats into the string without raising; 0
stands in for it since only the absence of an exception matters. -/
def generate_business_insights (c : AnalyticsCache) : Except String (List String) :=
  let customerIns : List String :=
    match c.customer_analytics with
    | none => []
    | some cd =>
      ["Average customer lifetime value: " ++
        toString (meanQ (cd.map (·.estimated_clv))),
       "Highest spending customer: " ++
        toString ((maxQ (cd.map (·.total_spent))).getD 0),
       "Active customers: " ++
        toString (cd.filter (fun r => r.customer_status == "Active")).length,
       "At-risk customers: " ++
        toString (cd.filter (fun r => r.customer_status == "At Risk")).length]
  let afterRestaurant : Except String (List String) :=
    match c.restaurant_performance with
    | none => .ok customerIns
    | some rd =>
      match rd.head? with
      | none => .error "single positional indexer is out-of-bounds"
      | some top =>
        .ok (customerIns ++
          ["Top performing restaurant: " ++ top.restaurant_name ++ " at " ++
            toString top.total_revenue,
           "Average restaurant rating: " ++ toString (meanQ (rd.map (·.rating)))])
  match afterRestaurant with
  | .error e => .error e
  | .ok l1 =>
    let afterPeak : Except String (List String) :=
      match c.peak_hours with
      | none => .ok l1
      | some ph =>
        match (ph.hourly.insertionSort
            (fun a b => b.order_count ≤ a.order_count)).head? with
        | none => .error "attempt to get argmax of an empty sequence"
        | some peak => .ok (l1 ++ ["Peak ordering hour: " ++ toString peak.hour_of_day])
    match afterPeak with
    | .error e => .error e
    | .ok l2 =>
      match c.menu_analytics with
      | none => .ok l2
      | some md =>
        match md.head? with
        | none => .error "single positional indexer is out-of-bounds"
        | some topItem => .ok (l2 ++ ["Best selling item: " ++ topItem.item_name])

/-- Counterexample to C1: revenue forecasting against the freshly created,
unpopulated schema raises (LinearRegression.fit on zero samples) instead of
returning an empty or fallback result. -/
theorem empty_store_forecast_raises :
    revenue_forecasting (get_time_series_data [] 0) 7 =
      .error "Found array with 0 sample(s)" := by
  rfl

/-- Claim C1 as amended: on the empty store the query-backed aggregations
return empty results and segmentation and peak-hours degrade gracefully,
but revenue forecasting raises from the zero-sample regression fit and
insight generation raises from iloc[0] on the empty restaurant table. -/
theorem empty_store_behavior :
    get_customer_analytics [] [] 0 = [] ∧
    get_restaurant_performance [] [] = [] ∧
    get_menu_analytics [] [] [] = [] ∧
    get_time_series_data [] 0 = [] ∧
    customer_segmentation 4 (fun _ => []) ⟨baseCols, [], none⟩ =
      .ok (⟨baseCols, [], none⟩, ⟨baseCols, [], none⟩) ∧
    peak_hours_analysis [] = ⟨[], [], [], []⟩ ∧
    revenue_forecasting [] 7 = .error "Found array with 0 sample(s)" ∧
    generate_business_insights ⟨some [], some [], some ⟨[], [], [], []⟩, some []⟩ =
      .error "single positional indexer is out-of-bounds" :=
  ⟨rfl, rfl, rfl, rfl, rfl, rfl, rfl, rfl⟩

end FoodDelivery
